import Mathlib

/-!
Verification development for the open_manipulator_x_moveit repository.

The embedding follows the two source files:
* `src/open_manipulator_position_ctrl/src/position_controller.cpp` —
  the playback engine (`PositionController`): gripper trajectory
  generation, MoveIt path ingestion, and the fixed-rate `process` tick.
* `src/open_manipulator_x_teleop/src/open_manipulator_x_teleop_joystick.cpp` —
  the teleop joystick service-call wrappers.

Real-valued quantities (`double` in the C++) are embedded as `ℚ`; machine
`int` counters are embedded as `ℤ`.  Eigen vectors/matrices are embedded as
total functions `ℤ → ℚ` / `ℤ → ℤ → ℚ` so that the out-of-range accesses the
C++ can perform are representable.  ROS transport (publishing, subscribing,
logging, threads) is I/O glue: callbacks become pure state transformers and
the single publication of a tick becomes an `Option` value.
-/

namespace OpenManipulator

/-- Modelled from the spec: the header `position_controller.h` of this
repository is not under `src/`; per §6 the control rate is a fixed frequency
with sample interval `1/frequency` (spec scenarios use tick interval 0.01 s,
i.e. `ITERATION_FREQUENCY = 100`). -/
def ITERATION_TIME : ℚ := 1 / 100

/-- Modelled from the spec: `MAX_JOINT_NUM` from the missing header; the arm
has 4 joints (`joint1..joint4`, §3 JointConfiguration). -/
def MAX_JOINT_NUM : ℤ := 4

/-- Modelled from the spec: `MAX_GRIPPER_NUM` from the missing header; the
gripper is a single degree of freedom (§3, §4.1 Scenario A: 1-DoF gripper
trajectory), and the gripper is component 4 of the present configuration. -/
def MAX_GRIPPER_NUM : ℤ := 1

/-- State of `PositionController` (fields of the class in
`position_controller.cpp`, plus the fields of its `MotionPlanningTool` that
the ingestion thread reads and writes).  `joint_id_` is a
`std::map<std::string, uint8_t>`, embedded as an association list sorted by
key, which is the map's iteration order. -/
structure RobotState where
  is_moving : Bool
  move_time : ℚ
  all_time_steps : ℤ
  step_cnt : ℤ
  moveit_execution : Bool
  gripper : Bool
  present_joint_position : ℤ → ℚ
  goal_joint_position : ℤ → ℚ
  goal_gripper_position : ℚ
  goal_gripper_trajectory : ℤ → ℚ
  goal_joint_trajectory : ℤ → ℤ → ℚ
  joint_id : List (String × ℤ)
  points : ℤ
  time_from_start : ℚ
  display_planned_path_positions : ℤ → ℤ → ℚ
  display_planned_path_velocities : ℤ → ℤ → ℚ
  display_planned_path_accelerations : ℤ → ℤ → ℚ

/-- Embeds `PositionController::PositionController` together with
`initPositionController`: flags cleared, counters zero, joint-name table
registered with `joint1..joint4 ↦ 1..4`, all vectors zeroed. -/
def initialState : RobotState where
  is_moving := false
  move_time := 0
  all_time_steps := 0
  step_cnt := 0
  moveit_execution := false
  gripper := false
  present_joint_position := fun _ => 0
  goal_joint_position := fun _ => 0
  goal_gripper_position := 0
  goal_gripper_trajectory := fun _ => 0
  goal_joint_trajectory := fun _ _ => 0
  joint_id := [("joint1", 1), ("joint2", 2), ("joint3", 3), ("joint4", 4)]
  points := 0
  time_from_start := 0
  display_planned_path_positions := fun _ _ => 0
  display_planned_path_velocities := fun _ _ => 0
  display_planned_path_accelerations := fun _ _ => 0

/-- Step count of `calculateGripperGoalTrajectory`, line 110:
`all_time_steps_ = int(floor((move_time_ / ITERATION_TIME) + 1.0))`,
generalized over the sample interval `dt` as in spec §4.1. -/
def numSteps (duration dt : ℚ) : ℤ := ⌊duration / dt + 1⌋

/-- Snapped duration of `calculateGripperGoalTrajectory`, line 111:
`move_time_ = double(all_time_steps_ - 1) * ITERATION_TIME`. -/
def snapDuration (duration dt : ℚ) : ℚ :=
  ((numSteps duration dt - 1 : ℤ) : ℚ) * dt

/-- Modelled from the spec: `robotis_framework::calcMinimumJerkTra` is an
external dependency not under `src/`.  Per §4.1 and the glossary, it is the
unique quintic with the six position/velocity/acceleration boundary
conditions at `t = 0` and `t = T` (the closed-form minimum-jerk
coefficients); this is its position profile sampled at time `t`. -/
def calcMinimumJerkTraPos (p0 v0 a0 p1 v1 a1 T t : ℚ) : ℚ :=
  let c0 := p0
  let c1 := v0
  let c2 := a0 / 2
  let c3 := (20 * (p1 - p0) - (8 * v1 + 12 * v0) * T - (3 * a0 - a1) * T ^ 2) / (2 * T ^ 3)
  let c4 := (30 * (p0 - p1) + (14 * v1 + 16 * v0) * T + (3 * a0 - 2 * a1) * T ^ 2) / (2 * T ^ 4)
  let c5 := (12 * (p1 - p0) - 6 * (v1 + v0) * T - (a0 - a1) * T ^ 2) / (2 * T ^ 5)
  c0 + c1 * t + c2 * t ^ 2 + c3 * t ^ 3 + c4 * t ^ 4 + c5 * t ^ 5

/-- Embeds `PositionController::calculateGripperGoalTrajectory` (lines 107-136):
snaps the step count and duration, fills the single gripper column with the
minimum-jerk profile (zero boundary velocity/acceleration) sampled on the
tick grid, then resets the step counter and raises `is_moving_` and
`gripper_`. -/
def calculateGripperGoalTrajectory (initial target : ℚ) (st : RobotState) : RobotState :=
  { st with
    all_time_steps := numSteps st.move_time ITERATION_TIME
    move_time := snapDuration st.move_time ITERATION_TIME
    goal_gripper_trajectory := fun i =>
      if 0 ≤ i ∧ i < numSteps st.move_time ITERATION_TIME then
        calcMinimumJerkTraPos initial 0 0 target 0 0
          (snapDuration st.move_time ITERATION_TIME) ((i : ℚ) * ITERATION_TIME)
      else 0
    step_cnt := 0
    is_moving := true
    gripper := true }

/-- Embeds `PositionController::gripOn` (lines 83-93): start boundary is the present
gripper position (component 4), target is `-75.0 * DEGREE2RADIAN`, duration
2.0 s.  `DEGREE2RADIAN` (π/180, from the missing header) is passed in as the
parameter `d2r`. -/
def gripOn (d2r : ℚ) (st : RobotState) : RobotState :=
  calculateGripperGoalTrajectory (st.present_joint_position 4) (-75 * d2r)
    { st with goal_gripper_position := -75 * d2r, move_time := 2 }

/-- Embeds `PositionController::gripOff` (lines 95-105): like `gripOn` with target
`0.0 * DEGREE2RADIAN`. -/
def gripOff (d2r : ℚ) (st : RobotState) : RobotState :=
  calculateGripperGoalTrajectory (st.present_joint_position 4) (0 * d2r)
    { st with goal_gripper_position := 0 * d2r, move_time := 2 }

/-- Embeds `PositionController::gripperPositionMsgCallback` (lines 242-256): the
manual command feed; tokens other than `grip_on`/`grip_off` only produce a
`ROS_ERROR` log and leave the state untouched. -/
def gripperPositionMsgCallback (d2r : ℚ) (msg : String) (st : RobotState) : RobotState :=
  if msg = "grip_on" then gripOn d2r st
  else if msg = "grip_off" then gripOff d2r st
  else st

/-- Embeds `PositionController::presentJointPositionMsgCallback` (lines 234-240):
copies components `0..4` of the incoming joint-state message into
`present_joint_position_`. -/
def presentJointPositionMsgCallback (pos : List ℚ) (st : RobotState) : RobotState :=
  { st with
    present_joint_position := fun i =>
      if 0 ≤ i ∧ i < MAX_JOINT_NUM + MAX_GRIPPER_NUM then pos.getD i.toNat 0
      else st.present_joint_position i }

/-- Embeds `PositionController::moveGroupActionFeedbackMsgCallback` (lines 138-144):
records the execution-confirmed signal only when not currently moving and the
feedback state string is `"MONITOR"`. -/
def moveGroupActionFeedbackMsgCallback (feedbackState : String) (st : RobotState) : RobotState :=
  if st.is_moving = false ∧ feedbackState = "MONITOR" then
    { st with moveit_execution := true }
  else st

/-- Embeds `PositionController::process` (lines 258-313), one fixed-rate tick.
While moving it copies row `step_cnt_` of the active buffer into the goal
position and increments the counter; it builds the outgoing joint-state
message by iterating `joint_id_` (sorted map order) and appending
`grip_joint`; it publishes only while moving, embedded as the `Option`
component; finally, if the incremented counter has reached
`all_time_steps_`, it clears `is_moving_`, `step_cnt_` and `gripper_`. -/
def process (st : RobotState) : RobotState × Option (List (String × ℚ)) :=
  let st1 :=
    if st.is_moving then
      if st.gripper then
        { st with
          goal_gripper_position := st.goal_gripper_trajectory st.step_cnt
          step_cnt := st.step_cnt + 1 }
      else
        { st with
          goal_joint_position := fun i =>
            if 0 ≤ i ∧ i < MAX_JOINT_NUM then st.goal_joint_trajectory st.step_cnt i
            else st.goal_joint_position i
          step_cnt := st.step_cnt + 1 }
    else st
  let msg :=
    (st1.joint_id.map (fun p => (p.1, st1.goal_joint_position (p.2 - 1)))) ++
      [("grip_joint", st1.goal_gripper_position)]
  let out := if st1.is_moving then some msg else none
  let st2 :=
    if st1.is_moving then
      if st1.all_time_steps ≤ st1.step_cnt then
        { st1 with is_moving := false, step_cnt := 0, gripper := false }
      else st1
    else st1
  (st2, out)

/-- The state component of one tick of the driving loop. -/
def tick (st : RobotState) : RobotState := (process st).1

/-- One waypoint of a `trajectory_msgs/JointTrajectory` inside the incoming
`moveit_msgs/DisplayTrajectory` message. -/
structure TrajectoryPoint where
  positions : List ℚ
  velocities : List ℚ
  accelerations : List ℚ
  time_from_start : ℚ

/-- One `joint_trajectory` segment of the incoming message: named joints plus
a list of waypoints. -/
structure JointTrajectoryMsg where
  joint_names : List String
  points : List TrajectoryPoint

/-- The `moveit_msgs/DisplayTrajectory` payload the ingestion thread reads. -/
structure DisplayTrajectoryMsg where
  trajectory : List JointTrajectoryMsg

/-- Sorted insertion of a fresh key with the value-initialized id `0`, as
`std::map::operator[]` performs on a missing key (`uint8_t` value
zero-initialized; the map stays ordered by key). -/
def insertSorted (k : String) (m : List (String × ℤ)) : List (String × ℤ) :=
  match m with
  | [] => [(k, 0)]
  | p :: rest =>
    if k.data < p.1.data then (k, 0) :: p :: rest else p :: insertSorted k rest

/-- Embeds `joint_id_[name]`: `std::map::operator[]` returns the mapped id when the
key exists and otherwise inserts the key with id `0` and returns that;
the result is the (possibly grown) map together with the id read. -/
def mapBracket (m : List (String × ℤ)) (k : String) : List (String × ℤ) × ℤ :=
  match m.lookup k with
  | some v => (m, v)
  | none => (insertSorted k m, 0)

/-- Single-cell write into an embedded Eigen matrix (`coeffRef` store). -/
def matUpdate (m : ℤ → ℤ → ℚ) (r c : ℤ) (v : ℚ) : ℤ → ℤ → ℚ :=
  fun i j => if i = r ∧ j = c then v else m i j

/-- The values `moveItTragectoryGenerateThread` threads through its loops:
the `MotionPlanningTool` fields (`points_`, the three planned-path matrices,
`time_from_start_`) and the controller's `joint_id_` map. -/
structure IngestState where
  points : ℤ
  pos : ℤ → ℤ → ℚ
  vel : ℤ → ℤ → ℚ
  acc : ℤ → ℤ → ℚ
  jid : List (String × ℤ)
  tfs : ℚ

/-- Body of the innermost loop of `moveItTragectoryGenerateThread`
(lines 197-208): reads the waypoint's position/velocity/acceleration at the
joint's index in the message, then performs the three
`joint_id_[_joint_name]` lookups (each a defaulting `operator[]`) and the
three matrix stores at column `joint_id_[name] - 1`. -/
def ingestJointAt (pIdx : ℤ) (jIdx : ℕ) (name : String) (pt : TrajectoryPoint)
    (a : IngestState) : IngestState :=
  let jp := pt.positions.getD jIdx 0
  let jv := pt.velocities.getD jIdx 0
  let ja := pt.accelerations.getD jIdx 0
  let r1 := mapBracket a.jid name
  let r2 := mapBracket r1.1 name
  let r3 := mapBracket r2.1 name
  { a with
    pos := matUpdate a.pos pIdx (r1.2 - 1) jp
    vel := matUpdate a.vel pIdx (r2.2 - 1) jv
    acc := matUpdate a.acc pIdx (r3.2 - 1) ja
    jid := r3.1 }

/-- The per-waypoint loop over the segment's joint names (inner loop of
lines 192-209). -/
def ingestPoint (names : List String) (pIdx : ℤ) (pt : TrajectoryPoint)
    (a : IngestState) : IngestState :=
  names.enum.foldl (fun b x => ingestJointAt pIdx x.1 x.2 pt b) a

/-- One `_tra_index` iteration of `moveItTragectoryGenerateThread`
(lines 176-210): records the waypoint count, resizes the three matrices
(resize leaves them unspecified, embedded as zero) and prefills every row of
the positions matrix with the current `goal_joint_position_`; then walks the
waypoints, recording each waypoint's `time_from_start` and copying its values
into the row of its ordinal index. -/
def ingestTrajectorySegment (goal : ℤ → ℚ) (tr : JointTrajectoryMsg)
    (a : IngestState) : IngestState :=
  let a1 : IngestState :=
    { a with
      points := (tr.points.length : ℤ)
      pos := fun p c =>
        if 0 ≤ p ∧ p < (tr.points.length : ℤ) ∧ 0 ≤ c ∧ c < MAX_JOINT_NUM then goal c
        else 0
      vel := fun _ _ => 0
      acc := fun _ _ => 0 }
  tr.points.enum.foldl
    (fun b x => ingestPoint tr.joint_names (x.1 : ℤ) x.2 { b with tfs := x.2.time_from_start })
    a1

/-- Embeds `PositionController::moveItTragectoryGenerateThread` (lines 172-232):
runs the ingestion loops, then sets `move_time_` to the last recorded
`time_from_start_`, `all_time_steps_` to the waypoint count, adopts the
positions matrix as `goal_joint_trajectory_`, and — only if
`moveit_execution_` is pending — arms playback (`is_moving_ := true`,
`step_cnt_ := 0`) and consumes the flag.  The `via_time` vector is written
and never read, and the 0.5 s sleep is timing-only; both are omitted. -/
def moveItTragectoryGenerateThread (msg : DisplayTrajectoryMsg) (st : RobotState) : RobotState :=
  let res := msg.trajectory.foldl
    (fun a tr => ingestTrajectorySegment st.goal_joint_position tr a)
    { points := st.points
      pos := st.display_planned_path_positions
      vel := st.display_planned_path_velocities
      acc := st.display_planned_path_accelerations
      jid := st.joint_id
      tfs := st.time_from_start }
  let st1 := { st with
    points := res.points
    display_planned_path_positions := res.pos
    display_planned_path_velocities := res.vel
    display_planned_path_accelerations := res.acc
    joint_id := res.jid
    time_from_start := res.tfs
    move_time := res.tfs
    all_time_steps := res.points
    goal_joint_trajectory := res.pos }
  if st.moveit_execution then
    { st1 with is_moving := true, step_cnt := 0, moveit_execution := false }
  else st1

/-- The four registered arm joint names, in message order. -/
def armJointNames : List String := ["joint1", "joint2", "joint3", "joint4"]

/-- A waypoint at nominal time `t` with the given joint positions (zero
velocities and accelerations). -/
def mkPoint (t : ℚ) (ps : List ℚ) : TrajectoryPoint :=
  { positions := ps
    velocities := [0, 0, 0, 0]
    accelerations := [0, 0, 0, 0]
    time_from_start := t }

/-- A display-trajectory message with a single segment. -/
def pathMsg (names : List String) (pts : List TrajectoryPoint) : DisplayTrajectoryMsg :=
  { trajectory := [{ joint_names := names, points := pts }] }

namespace Teleop

/-- Request type of the `SetJointPosition` service used by the teleop node. -/
structure SetJointPositionRequest where
  joint_name : List String
  position : List ℚ
  path_time : ℚ

/-- Request type of the `SetKinematicsPose` service used by the teleop node. -/
structure SetKinematicsPoseRequest where
  planning_group : String
  x : ℚ
  y : ℚ
  z : ℚ
  path_time : ℚ

/-- Embeds `OpenManipulatorXTeleopJoystick::set_joint_space_path` (lines 182-197):
builds the request, fires it asynchronously (I/O glue), and returns `false`
unconditionally.  The value pair is (request built, returned Bool). -/
def set_joint_space_path (joint_name : List String) (joint_angle : List ℚ)
    (path_time : ℚ) : SetJointPositionRequest × Bool :=
  ({ joint_name := joint_name, position := joint_angle, path_time := path_time }, false)

/-- Embeds `OpenManipulatorXTeleopJoystick::set_tool_control` (lines 199-213): the
request names only `"gripper"`, `path_time` is left at the message default
`0`; returns `false` unconditionally. -/
def set_tool_control (joint_angle : List ℚ) : SetJointPositionRequest × Bool :=
  ({ joint_name := ["gripper"], position := joint_angle, path_time := 0 }, false)

/-- Embeds `OpenManipulatorXTeleopJoystick::set_task_space_path_from_present_position_only`
(lines 215-232): fills the kinematics pose from the first three components of
the argument; returns `false` unconditionally. -/
def set_task_space_path_from_present_position_only (kinematics_pose : List ℚ)
    (path_time : ℚ) : SetKinematicsPoseRequest × Bool :=
  ({ planning_group := "gripper"
     x := kinematics_pose.getD 0 0
     y := kinematics_pose.getD 1 0
     z := kinematics_pose.getD 2 0
     path_time := path_time }, false)

end Teleop

/-- C2: for `duration > 0` and `dt > 0`, the step count is
`⌊duration/dt⌋ + 1`, the duration snaps to `(numSteps - 1) * dt`, and the
snapping is idempotent: re-deriving the step count from the snapped duration
yields the same count, and re-snapping reproduces the snapped duration
exactly. -/
theorem C2_step_count_snapping (duration dt : ℚ) (hd : 0 < duration) (ht : 0 < dt) :
    numSteps duration dt = ⌊duration / dt⌋ + 1 ∧
    numSteps (snapDuration duration dt) dt = numSteps duration dt ∧
    snapDuration (snapDuration duration dt) dt = snapDuration duration dt := by
  have hdt : dt ≠ 0 := ne_of_gt ht
  have hfloor : numSteps duration dt = ⌊duration / dt⌋ + 1 := by
    unfold numSteps
    exact_mod_cast Int.floor_add_one (duration / dt)
  have h2 : snapDuration duration dt / dt = ((numSteps duration dt - 1 : ℤ) : ℚ) := by
    unfold snapDuration
    exact mul_div_cancel_right₀ _ hdt
  have hre : numSteps (snapDuration duration dt) dt = numSteps duration dt := by
    show ⌊snapDuration duration dt / dt + 1⌋ = numSteps duration dt
    rw [h2]
    have h1 : ((numSteps duration dt - 1 : ℤ) : ℚ) + 1 = ((numSteps duration dt : ℤ) : ℚ) := by
      push_cast
      ring
    rw [h1, Int.floor_intCast]
  refine ⟨hfloor, hre, ?_⟩
  show ((numSteps (snapDuration duration dt) dt - 1 : ℤ) : ℚ) * dt = snapDuration duration dt
  rw [hre]
  rfl

/-- C2 witness: duration 2.0 s, tick interval 0.01 s. -/
theorem C2_step_count_snapping_witness :
    numSteps 2 (1 / 100) = ⌊(2 : ℚ) / (1 / 100)⌋ + 1 ∧
    numSteps (snapDuration 2 (1 / 100)) (1 / 100) = numSteps 2 (1 / 100) ∧
    snapDuration (snapDuration 2 (1 / 100)) (1 / 100) = snapDuration 2 (1 / 100) :=
  C2_step_count_snapping 2 (1 / 100) (by norm_num) (by norm_num)

/-- C9: a manual command token other than `grip_on` or `grip_off` causes no
state mutation at all: the callback returns the state unchanged (so
`is_moving_`, the step counter, both trajectory buffers and all goal
positions are exactly as before). -/
theorem C9_unrecognized_command_no_mutation (d2r : ℚ) (msg : String) (st : RobotState)
    (h1 : msg ≠ "grip_on") (h2 : msg ≠ "grip_off") :
    gripperPositionMsgCallback d2r msg st = st := by
  unfold gripperPositionMsgCallback
  rw [if_neg h1, if_neg h2]

/-- C9 witness: the token `"foo"` leaves the initial state unchanged. -/
theorem C9_unrecognized_command_no_mutation_witness :
    gripperPositionMsgCallback 1 "foo" initialState = initialState :=
  C9_unrecognized_command_no_mutation 1 "foo" initialState (by decide) (by decide)

/-- A duration of 2.0 s at tick interval 0.01 s yields 201 steps. -/
theorem numSteps_two_seconds : numSteps 2 ITERATION_TIME = 201 := by
  have h : (2 : ℚ) / ITERATION_TIME + 1 = ((201 : ℤ) : ℚ) := by
    norm_num [ITERATION_TIME]
  unfold numSteps
  rw [h, Int.floor_intCast]

/-- Snapping a 2.0 s duration at tick interval 0.01 s leaves it at 2.0 s. -/
theorem snapDuration_two_seconds : snapDuration 2 ITERATION_TIME = 2 := by
  unfold snapDuration
  rw [numSteps_two_seconds]
  norm_num [ITERATION_TIME]

/-- C1: `grip_on`/`grip_off` arm a freshly generated 1-DoF trajectory whose
start boundary is the observed gripper position (component 4 of the present
configuration) and whose end boundary is the requested target
(`-75 * DEGREE2RADIAN` for `grip_on`, `0` for `grip_off`), with snapped
duration 2.0 s, hence `totalSteps = 201`; row 0 equals the start angle and
row 200 equals the target (exactly, in the rational model). -/
theorem C1_grip_commands_arm_gripper_trajectory (d2r : ℚ) (st : RobotState) :
    (gripOn d2r st).is_moving = true ∧
    (gripOn d2r st).gripper = true ∧
    (gripOn d2r st).step_cnt = 0 ∧
    (gripOn d2r st).move_time = 2 ∧
    (gripOn d2r st).all_time_steps = 201 ∧
    (gripOn d2r st).goal_gripper_position = -75 * d2r ∧
    (gripOn d2r st).goal_gripper_trajectory 0 = st.present_joint_position 4 ∧
    (gripOn d2r st).goal_gripper_trajectory 200 = -75 * d2r ∧
    (gripOff d2r st).all_time_steps = 201 ∧
    (gripOff d2r st).goal_gripper_trajectory 0 = st.present_joint_position 4 ∧
    (gripOff d2r st).goal_gripper_trajectory 200 = 0 := by
  have h201 := numSteps_two_seconds
  have hsnap := snapDuration_two_seconds
  refine ⟨rfl, rfl, rfl, hsnap, h201, rfl, ?_, ?_, h201, ?_, ?_⟩ <;>
  · show (if _ ∧ _ < numSteps 2 ITERATION_TIME then
        calcMinimumJerkTraPos _ 0 0 _ 0 0 (snapDuration 2 ITERATION_TIME) _ else 0) = _
    rw [h201, hsnap]
    norm_num [calcMinimumJerkTraPos, ITERATION_TIME]
    try ring

/-- C5 counterexample: on a tick in the `Idle` state (here the freshly
initialized controller) nothing at all is published, contradicting the claim
that the current setpoint is emitted on every tick. -/
theorem C5_counterexample_idle_tick_publishes_nothing :
    (process initialState).2 = none := rfl

/-- C5 amended: a tick publishes a setpoint message exactly when the engine
is `Playing` (`is_moving_`); while `Idle` nothing is emitted and the last
held configuration is not re-published. -/
theorem C5_publish_exactly_while_playing (st : RobotState) :
    (process st).2.isSome = st.is_moving := by
  cases hm : st.is_moving <;> cases hg : st.gripper <;> simp [process, hm, hg]

/-- C8 counterexample: a generation request with duration `-1 < 0` is not
rejected: no `InvalidParameter` error exists, a (degenerate) trajectory is
still installed, and the playback state is mutated — `is_moving_` flips from
`false` to `true` and `all_time_steps_` becomes `-99`. -/
theorem C8_counterexample_negative_duration_still_arms :
    ({ initialState with move_time := -1 } : RobotState).is_moving = false ∧
    (calculateGripperGoalTrajectory 0 0
      { initialState with move_time := -1 }).is_moving = true ∧
    (calculateGripperGoalTrajectory 0 0
      { initialState with move_time := -1 }).all_time_steps = -99 := by
  refine ⟨rfl, rfl, ?_⟩
  show numSteps (-1 : ℚ) ITERATION_TIME = -99
  have h : (-1 : ℚ) / ITERATION_TIME + 1 = ((-99 : ℤ) : ℚ) := by
    norm_num [ITERATION_TIME]
  unfold numSteps
  rw [h, Int.floor_intCast]

/-- C8 amended: gripper trajectory generation performs no parameter
validation: for every duration (the sample interval being the fixed positive
constant `ITERATION_TIME`), it unconditionally snaps the step count to
`⌊duration/dt + 1⌋` — possibly non-positive — and arms the motion, setting
`is_moving_` and `gripper_` and resetting the step counter; no
`InvalidParameter` error path exists. -/
theorem C8_generation_never_rejects (initial target : ℚ) (st : RobotState) :
    (calculateGripperGoalTrajectory initial target st).is_moving = true ∧
    (calculateGripperGoalTrajectory initial target st).gripper = true ∧
    (calculateGripperGoalTrajectory initial target st).step_cnt = 0 ∧
    (calculateGripperGoalTrajectory initial target st).all_time_steps
      = ⌊st.move_time / ITERATION_TIME + 1⌋ :=
  ⟨rfl, rfl, rfl, rfl⟩

/-- A tick in the `Idle` state changes nothing. -/
theorem tick_idle (st : RobotState) (h : st.is_moving = false) : tick st = st := by
  simp [tick, process, h]

/-- Iterated ticks in the `Idle` state change nothing. -/
theorem iterate_tick_idle (st : RobotState) (h : st.is_moving = false) :
    ∀ k : ℕ, tick^[k] st = st := by
  intro k
  induction k with
  | zero => rfl
  | succ n ih => rw [Function.iterate_succ_apply', ih, tick_idle st h]

/-- A tick while `Playing` that does not yet exhaust the buffer: the counter
advances by one and the playback bookkeeping fields are preserved. -/
theorem tick_moving_continue (st : RobotState) (h : st.is_moving = true)
    (hlt : st.step_cnt + 1 < st.all_time_steps) :
    (tick st).is_moving = true ∧ (tick st).step_cnt = st.step_cnt + 1 ∧
    (tick st).all_time_steps = st.all_time_steps ∧ (tick st).gripper = st.gripper := by
  cases hg : st.gripper <;>
    simp [tick, process, h, hg, not_le.mpr hlt]

/-- A tick while `Playing` whose increment reaches the step total: playback
ends, the counter resets, and the gripper buffer flag clears. -/
theorem tick_moving_finish (st : RobotState) (h : st.is_moving = true)
    (hge : st.all_time_steps ≤ st.step_cnt + 1) :
    (tick st).is_moving = false ∧ (tick st).step_cnt = 0 ∧ (tick st).gripper = false := by
  cases hg : st.gripper <;>
    simp [tick, process, h, hg, hge]

/-- While the armed motion is still in progress, tick `k` finds the engine
`Playing` with step counter exactly `k` and the bookkeeping preserved. -/
theorem playing_steps (st : RobotState) (h1 : st.is_moving = true)
    (h2 : st.step_cnt = 0) :
    ∀ k : ℕ, (k : ℤ) < st.all_time_steps →
      (tick^[k] st).is_moving = true ∧ (tick^[k] st).step_cnt = (k : ℤ) ∧
      (tick^[k] st).all_time_steps = st.all_time_steps ∧
      (tick^[k] st).gripper = st.gripper := by
  intro k
  induction k with
  | zero => exact fun _ => ⟨h1, by simpa using h2, rfl, rfl⟩
  | succ n ih =>
    intro hk
    have hn : (n : ℤ) < st.all_time_steps := by push_cast at hk ⊢; omega
    obtain ⟨m1, m2, m3, m4⟩ := ih hn
    have hlt : (tick^[n] st).step_cnt + 1 < (tick^[n] st).all_time_steps := by
      rw [m2, m3]; push_cast at hk; omega
    rw [Function.iterate_succ_apply']
    obtain ⟨c1, c2, c3, c4⟩ := tick_moving_continue _ m1 hlt
    refine ⟨c1, ?_, by rw [c3, m3], by rw [c4, m4]⟩
    rw [c2, m2]; push_cast; ring

/-- After exactly `all_time_steps` ticks the armed motion has completed: the
engine is `Idle`, the counter is reset and the buffer kind cleared. -/
theorem playing_finishes (st : RobotState) (h1 : st.is_moving = true)
    (h2 : st.step_cnt = 0) (h3 : 0 < st.all_time_steps) :
    (tick^[st.all_time_steps.toNat] st).is_moving = false ∧
    (tick^[st.all_time_steps.toNat] st).step_cnt = 0 ∧
    (tick^[st.all_time_steps.toNat] st).gripper = false := by
  have hcast : ((st.all_time_steps.toNat : ℤ)) = st.all_time_steps :=
    Int.toNat_of_nonneg h3.le
  have hn1 : 1 ≤ st.all_time_steps.toNat := by omega
  have hprev := playing_steps st h1 h2 (st.all_time_steps.toNat - 1) (by
    have : ((st.all_time_steps.toNat - 1 : ℕ) : ℤ) = st.all_time_steps - 1 := by omega
    omega)
  have hfin := tick_moving_finish _ hprev.1 (by
    rw [hprev.2.1, hprev.2.2.1]
    have : ((st.all_time_steps.toNat - 1 : ℕ) : ℤ) = st.all_time_steps - 1 := by omega
    omega)
  have heq : tick^[st.all_time_steps.toNat] st = tick (tick^[st.all_time_steps.toNat - 1] st) := by
    conv_lhs => rw [← Nat.sub_add_cancel hn1]
    rw [Function.iterate_succ_apply']
  rw [heq]
  exact hfin

/-- C3: for an armed motion (`Playing` with the counter reset and a positive
step total), every tick keeps `0 ≤ step_cnt_ ≤ all_time_steps_`; the engine
is `Playing` at tick `k` exactly when `k < all_time_steps_`, so exactly one
`Playing → Idle` transition occurs, at the tick whose increment first reaches
the total; and that transition resets the counter to 0 and clears the active
buffer kind (`gripper_`). -/
theorem C3_playback_invariant (st : RobotState) (h1 : st.is_moving = true)
    (h2 : st.step_cnt = 0) (h3 : 0 < st.all_time_steps) :
    (∀ k : ℕ, ((tick^[k] st).is_moving = true ↔ (k : ℤ) < st.all_time_steps)) ∧
    (∀ k : ℕ, 0 ≤ (tick^[k] st).step_cnt ∧ (tick^[k] st).step_cnt ≤ st.all_time_steps) ∧
    (tick^[st.all_time_steps.toNat] st).step_cnt = 0 ∧
    (tick^[st.all_time_steps.toNat] st).gripper = false := by
  have hcast : ((st.all_time_steps.toNat : ℤ)) = st.all_time_steps :=
    Int.toNat_of_nonneg h3.le
  have hend := playing_finishes st h1 h2 h3
  have hstable : ∀ m : ℕ, tick^[m] (tick^[st.all_time_steps.toNat] st)
      = tick^[st.all_time_steps.toNat] st :=
    iterate_tick_idle _ hend.1
  have hpast : ∀ k : ℕ, st.all_time_steps.toNat ≤ k →
      tick^[k] st = tick^[st.all_time_steps.toNat] st := by
    intro k hk
    conv_lhs => rw [← Nat.sub_add_cancel hk]
    rw [Function.iterate_add_apply]
    exact hstable _
  refine ⟨?_, ?_, hend.2.1, hend.2.2⟩
  · intro k
    constructor
    · intro hk
      by_contra hge
      push_neg at hge
      have hkn : st.all_time_steps.toNat ≤ k := by omega
      rw [hpast k hkn, hend.1] at hk
      exact absurd hk (by simp)
    · intro hk
      exact (playing_steps st h1 h2 k hk).1
  · intro k
    by_cases hk : (k : ℤ) < st.all_time_steps
    · obtain ⟨-, hc, -, -⟩ := playing_steps st h1 h2 k hk
      constructor <;> omega
    · have hkn : st.all_time_steps.toNat ≤ k := by omega
      rw [hpast k hkn, hend.2.1]
      exact ⟨le_refl 0, h3.le⟩

/-- C3 witness: the motion armed by `grip_on` from the initial state is
`Playing` at tick 0 and finishes with the counter reset after its 201 ticks. -/
theorem C3_playback_invariant_witness :
    (tick^[0] (gripOn 1 initialState)).is_moving = true ∧
    (tick^[(gripOn 1 initialState).all_time_steps.toNat] (gripOn 1 initialState)).step_cnt = 0 := by
  have h3 : (0 : ℤ) < (gripOn 1 initialState).all_time_steps := by
    rw [show (gripOn 1 initialState).all_time_steps = 201 from numSteps_two_seconds]
    norm_num
  have H := C3_playback_invariant (gripOn 1 initialState) rfl rfl h3
  exact ⟨(H.1 0).mpr (by exact_mod_cast h3), H.2.2.1⟩

/-- C10: each of the three teleop service-call wrappers returns `false` for
every input, so the Boolean return value never reflects whether the request
was sent or whether planning succeeded. -/
theorem C10_teleop_wrappers_return_false (joint_name : List String)
    (joint_angle : List ℚ) (path_time : ℚ) (kinematics_pose : List ℚ) :
    (Teleop.set_joint_space_path joint_name joint_angle path_time).2 = false ∧
    (Teleop.set_tool_control joint_angle).2 = false ∧
    (Teleop.set_task_space_path_from_present_position_only kinematics_pose path_time).2 = false :=
  ⟨rfl, rfl, rfl⟩

/-- Ingestion with no pending execution confirmation neither arms playback
nor raises the confirmation flag. -/
theorem thread_without_confirmation (m : DisplayTrajectoryMsg) (s : RobotState)
    (h : s.moveit_execution = false) :
    (moveItTragectoryGenerateThread m s).is_moving = s.is_moving ∧
    (moveItTragectoryGenerateThread m s).moveit_execution = false := by
  simp [moveItTragectoryGenerateThread, h]

/-- Any sequence of path arrivals leaves an idle, unconfirmed engine idle and
unconfirmed. -/
theorem thread_fold_stays_idle (msgs : List DisplayTrajectoryMsg) :
    ∀ s : RobotState, s.is_moving = false → s.moveit_execution = false →
      (msgs.foldl (fun s m => moveItTragectoryGenerateThread m s) s).is_moving = false ∧
      (msgs.foldl (fun s m => moveItTragectoryGenerateThread m s) s).moveit_execution = false := by
  induction msgs with
  | nil => exact fun s h1 h2 => ⟨h1, h2⟩
  | cons m rest ih =>
    intro s h1 h2
    obtain ⟨a1, a2⟩ := thread_without_confirmation m s h2
    rw [List.foldl_cons]
    exact ih _ (a1.trans h1) a2

/-- C4 counterexample: confirmation is received while `Idle`, then a gripper
command starts a motion, then a path arrives — ingestion consumes the pending
confirmation and (re)arms playback (`step_cnt_ := 0`, `all_time_steps_ := 1`)
even though the engine was already `Playing` (and the active buffer kind even
stays `Gripper`), contradicting the claim that the transition is armed only
when not already in a `Playing` state. -/
theorem C4_counterexample_arms_while_playing :
    (gripperPositionMsgCallback 1 "grip_on"
      (moveGroupActionFeedbackMsgCallback "MONITOR" initialState)).is_moving = true ∧
    (gripperPositionMsgCallback 1 "grip_on"
      (moveGroupActionFeedbackMsgCallback "MONITOR" initialState)).moveit_execution = true ∧
    (moveItTragectoryGenerateThread (pathMsg armJointNames [mkPoint 1 [0, 0, 0, 0]])
      (gripperPositionMsgCallback 1 "grip_on"
        (moveGroupActionFeedbackMsgCallback "MONITOR" initialState))).is_moving = true ∧
    (moveItTragectoryGenerateThread (pathMsg armJointNames [mkPoint 1 [0, 0, 0, 0]])
      (gripperPositionMsgCallback 1 "grip_on"
        (moveGroupActionFeedbackMsgCallback "MONITOR" initialState))).moveit_execution = false ∧
    (moveItTragectoryGenerateThread (pathMsg armJointNames [mkPoint 1 [0, 0, 0, 0]])
      (gripperPositionMsgCallback 1 "grip_on"
        (moveGroupActionFeedbackMsgCallback "MONITOR" initialState))).step_cnt = 0 ∧
    (moveItTragectoryGenerateThread (pathMsg armJointNames [mkPoint 1 [0, 0, 0, 0]])
      (gripperPositionMsgCallback 1 "grip_on"
        (moveGroupActionFeedbackMsgCallback "MONITOR" initialState))).all_time_steps = 1 ∧
    (moveItTragectoryGenerateThread (pathMsg armJointNames [mkPoint 1 [0, 0, 0, 0]])
      (gripperPositionMsgCallback 1 "grip_on"
        (moveGroupActionFeedbackMsgCallback "MONITOR" initialState))).gripper = true := by
  refine ⟨rfl, rfl, rfl, rfl, rfl, ?_, rfl⟩
  decide

/-- C4 amended: the not-already-`Playing` check gates only the *recording* of
the execution-confirmed signal (MONITOR feedback is ignored while `Playing`);
path ingestion arms playback whenever an unconsumed confirmation is pending,
even if the engine has started `Playing` since the confirmation was recorded.
If confirmation never arrives, the engine stays `Idle` indefinitely despite
any sequence of path arrivals; and a confirmation followed by path ingestion
from `Idle` transitions the engine to `Playing`. -/
theorem C4_confirmation_gating (st : RobotState) (fb : String)
    (msg : DisplayTrajectoryMsg) (msgs : List DisplayTrajectoryMsg) :
    (st.is_moving = true → moveGroupActionFeedbackMsgCallback fb st = st) ∧
    (st.is_moving = false → st.moveit_execution = false →
      (msgs.foldl (fun s m => moveItTragectoryGenerateThread m s) st).is_moving = false) ∧
    (st.is_moving = false →
      (moveItTragectoryGenerateThread msg
        (moveGroupActionFeedbackMsgCallback "MONITOR" st)).is_moving = true) := by
  refine ⟨?_, ?_, ?_⟩
  · intro h
    simp [moveGroupActionFeedbackMsgCallback, h]
  · intro h1 h2
    exact (thread_fold_stays_idle msgs st h1 h2).1
  · intro h
    simp [moveGroupActionFeedbackMsgCallback, moveItTragectoryGenerateThread, h]

/-- C4 witness: from the freshly initialized engine, a path alone leaves it
`Idle`, while MONITOR feedback followed by the same path arms playback. -/
theorem C4_confirmation_gating_witness :
    (([pathMsg armJointNames [mkPoint 1 [0, 0, 0, 0]]].foldl
      (fun s m => moveItTragectoryGenerateThread m s) initialState).is_moving = false) ∧
    ((moveItTragectoryGenerateThread (pathMsg armJointNames [mkPoint 1 [0, 0, 0, 0]])
      (moveGroupActionFeedbackMsgCallback "MONITOR" initialState)).is_moving = true) := by
  have H := C4_confirmation_gating initialState "x"
    (pathMsg armJointNames [mkPoint 1 [0, 0, 0, 0]])
    [pathMsg armJointNames [mkPoint 1 [0, 0, 0, 0]]]
  exact ⟨H.2.1 rfl rfl, H.2.2 rfl⟩

/-- C6 counterexample: ingesting a path whose first waypoint is
`(1, 2, 3, 4)` into the freshly initialized engine (last-commanded joint
configuration all zero) produces a table whose row 0, column 0 is `1` — the
first waypoint — and not the last-commanded configuration value `0`. -/
theorem C6_counterexample_row0_is_first_waypoint :
    (moveItTragectoryGenerateThread (pathMsg armJointNames [mkPoint 1 [1, 2, 3, 4]])
      initialState).goal_joint_trajectory 0 0 = 1 ∧
    initialState.goal_joint_position 0 = 0 := by
  constructor
  · decide
  · rfl

set_option maxHeartbeats 1600000 in
/-- C6 amended: row 0 of the produced table is prefilled with the engine's
last-commanded joint configuration, but the waypoint loop then overwrites it,
for every joint named in the path, with the *first waypoint's* positions; row
0 keeps the last-commanded value only in the columns of joints not named in
the path. -/
theorem C6_row0_prefill_overwritten (g : ℤ → ℚ) (a b c d t : ℚ) :
    ((moveItTragectoryGenerateThread (pathMsg armJointNames [mkPoint t [a, b, c, d]])
        { initialState with goal_joint_position := g }).goal_joint_trajectory 0 0 = a ∧
      (moveItTragectoryGenerateThread (pathMsg armJointNames [mkPoint t [a, b, c, d]])
        { initialState with goal_joint_position := g }).goal_joint_trajectory 0 1 = b ∧
      (moveItTragectoryGenerateThread (pathMsg armJointNames [mkPoint t [a, b, c, d]])
        { initialState with goal_joint_position := g }).goal_joint_trajectory 0 2 = c ∧
      (moveItTragectoryGenerateThread (pathMsg armJointNames [mkPoint t [a, b, c, d]])
        { initialState with goal_joint_position := g }).goal_joint_trajectory 0 3 = d) ∧
    (moveItTragectoryGenerateThread (pathMsg ["joint2", "joint3", "joint4"]
        [mkPoint t [b, c, d]])
        { initialState with goal_joint_position := g }).goal_joint_trajectory 0 0
      = g 0 :=
  ⟨⟨rfl, rfl, rfl, rfl⟩, rfl⟩

/-- The element of an `enumFrom` pair is an element of the underlying list. -/
theorem snd_mem_of_mem_enumFrom {α : Type} :
    ∀ (l : List α) (n : ℕ) (x : ℕ × α), x ∈ l.enumFrom n → x.2 ∈ l := by
  intro l
  induction l with
  | nil => intro n x h; simp [List.enumFrom] at h
  | cons a rest ih =>
    intro n x h
    simp only [List.enumFrom] at h
    rcases List.mem_cons.mp h with h1 | h2
    · simp [h1]
    · exact List.mem_cons_of_mem a (ih (n + 1) x h2)

/-- The element of an `enum` pair is an element of the underlying list. -/
theorem snd_mem_of_mem_enum {α : Type} {l : List α} {x : ℕ × α} (h : x ∈ l.enum) :
    x.2 ∈ l :=
  snd_mem_of_mem_enumFrom l 0 x h

/-- A `joint_id_[k]` access on a registered key leaves the map unchanged. -/
theorem mapBracket_known (m : List (String × ℤ)) (k : String)
    (h : (m.lookup k).isSome = true) : (mapBracket m k).1 = m := by
  unfold mapBracket
  cases hm : m.lookup k with
  | none => rw [hm] at h; simp at h
  | some v => rfl

/-- Ingesting one named joint value with a registered name leaves the
name-to-index table unchanged. -/
theorem ingestJointAt_jid_known (pIdx : ℤ) (jIdx : ℕ) (name : String)
    (pt : TrajectoryPoint) (a : IngestState)
    (h : (a.jid.lookup name).isSome = true) :
    (ingestJointAt pIdx jIdx name pt a).jid = a.jid := by
  simp only [ingestJointAt]
  rw [mapBracket_known _ _ h, mapBracket_known _ _ h, mapBracket_known _ _ h]

/-- The per-waypoint fold over registered joint names leaves the
name-to-index table unchanged. -/
theorem foldl_ingest_jid_known (pIdx : ℤ) (pt : TrajectoryPoint) :
    ∀ (l : List (ℕ × String)) (a : IngestState),
      (∀ x ∈ l, (a.jid.lookup x.2).isSome = true) →
      (l.foldl (fun b x => ingestJointAt pIdx x.1 x.2 pt b) a).jid = a.jid := by
  intro l
  induction l with
  | nil => exact fun a _ => rfl
  | cons x rest ih =>
    intro a h
    have hx := h x (List.mem_cons_self x rest)
    have hja := ingestJointAt_jid_known pIdx x.1 x.2 pt a hx
    rw [List.foldl_cons, ih _ (by rw [hja]; exact fun y hy => h y (List.mem_cons_of_mem x hy)), hja]

/-- The per-segment fold over waypoints with registered joint names leaves
the name-to-index table unchanged. -/
theorem foldl_points_jid_known (names : List String) :
    ∀ (l : List (ℕ × TrajectoryPoint)) (a : IngestState),
      (∀ n ∈ names, (a.jid.lookup n).isSome = true) →
      (l.foldl (fun b x => ingestPoint names (x.1 : ℤ) x.2
        { b with tfs := x.2.time_from_start }) a).jid = a.jid := by
  intro l
  induction l with
  | nil => exact fun a _ => rfl
  | cons x rest ih =>
    intro a h
    have hpt : (ingestPoint names (x.1 : ℤ) x.2 { a with tfs := x.2.time_from_start }).jid
        = a.jid := by
      unfold ingestPoint
      exact foldl_ingest_jid_known _ _ _ _ (fun y hy => h y.2 (snd_mem_of_mem_enum hy))
    rw [List.foldl_cons, ih _ (by rw [hpt]; exact h), hpt]

/-- Ingesting one path segment whose joint names are all registered leaves
the name-to-index table unchanged. -/
theorem ingestSegment_jid_known (goal : ℤ → ℚ) (tr : JointTrajectoryMsg)
    (a : IngestState) (h : ∀ n ∈ tr.joint_names, (a.jid.lookup n).isSome = true) :
    (ingestTrajectorySegment goal tr a).jid = a.jid := by
  simp only [ingestTrajectorySegment]
  exact foldl_points_jid_known tr.joint_names tr.points.enum _ h

/-- The fold over path segments with registered joint names leaves the
name-to-index table unchanged. -/
theorem foldl_segments_jid_known (goal : ℤ → ℚ) :
    ∀ (l : List JointTrajectoryMsg) (a : IngestState),
      (∀ tr ∈ l, ∀ n ∈ tr.joint_names, (a.jid.lookup n).isSome = true) →
      (l.foldl (fun a tr => ingestTrajectorySegment goal tr a) a).jid = a.jid := by
  intro l
  induction l with
  | nil => exact fun a _ => rfl
  | cons tr rest ih =>
    intro a h
    have hseg := ingestSegment_jid_known goal tr a (h tr (List.mem_cons_self tr rest))
    rw [List.foldl_cons,
      ih _ (by rw [hseg]; exact fun s hs => h s (List.mem_cons_of_mem tr hs)), hseg]

/-- C7 counterexample: ingesting a path naming the unregistered joint
`"foo"` raises no error and mutates the registered name-to-index table —
`std::map::operator[]` inserts `"foo"` with id `0` — and the waypoint value
is stored at column `0 - 1 = -1`, outside the four joint columns. -/
theorem C7_counterexample_unknown_name_mutates_table :
    (moveItTragectoryGenerateThread (pathMsg ["foo"] [mkPoint 1 [42]])
      initialState).joint_id ≠ initialState.joint_id ∧
    (moveItTragectoryGenerateThread (pathMsg ["foo"] [mkPoint 1 [42]])
      initialState).joint_id
      = [("foo", 0), ("joint1", 1), ("joint2", 2), ("joint3", 3), ("joint4", 4)] ∧
    (moveItTragectoryGenerateThread (pathMsg ["foo"] [mkPoint 1 [42]])
      initialState).goal_joint_trajectory 0 (-1) = 42 := by
  refine ⟨by decide, by decide, by decide⟩

/-- C7 amended: joint names are resolved through the registered
name-to-index table, but by a *defaulting* lookup: an unregistered name is
inserted into the table with id `0` (its waypoint value landing at column
`-1`), no `UnknownJoint` error exists and ingestion never fails; the table is
left unchanged by ingestion whenever every incoming joint name is already
registered, which this theorem states. -/
theorem C7_registered_names_leave_table_unchanged (msg : DisplayTrajectoryMsg)
    (st : RobotState)
    (h : ∀ tr ∈ msg.trajectory, ∀ n ∈ tr.joint_names, (st.joint_id.lookup n).isSome = true) :
    (moveItTragectoryGenerateThread msg st).joint_id = st.joint_id := by
  by_cases hex : st.moveit_execution <;>
    simp only [moveItTragectoryGenerateThread, hex, if_true, if_false,
      Bool.false_eq_true] <;>
    exact foldl_segments_jid_known st.goal_joint_position msg.trajectory _ h

/-- C7 witness: a path naming only the registered joints `joint1..joint4`
leaves the table of the freshly initialized controller unchanged. -/
theorem C7_registered_names_leave_table_unchanged_witness :
    (moveItTragectoryGenerateThread (pathMsg armJointNames [mkPoint 1 [0, 0, 0, 0]])
      initialState).joint_id = initialState.joint_id :=
  C7_registered_names_leave_table_unchanged _ _ (by decide)

end OpenManipulator
